import Mathlib

/-!
Shallow embedding of the stwo-brainfuck repository (crates brainfuck_vm and
brainfuck_prover) for checking the natural-language specification against the
code.  Pure Rust functions become Lean functions; the stateful Fiat-Shamir
channel and commitment session of the protocol driver become explicit state
threaded through the driver, together with an ordered event log; Rust panics
are modelled by an explicit `PanicOr` result type; fallible code returns
`Except`.
-/

deriving instance DecidableEq for Except

namespace StwoBrainfuck

/-! ## brainfuck_vm/src/instruction.rs -/

/-- The eight Brainfuck opcodes, mirroring `enum InstructionType`. -/
inductive InstructionType where
  | Right
  | Left
  | Plus
  | Minus
  | PutChar
  | ReadChar
  | JumpIfZero
  | JumpIfNotZero
deriving DecidableEq

/-- `impl FromStr for InstructionType`: the match over the eight one-character
symbols, every other string is `Err(())`. -/
def InstructionType.from_str (s : String) : Except Unit InstructionType :=
  if s = ">" then .ok .Right
  else if s = "<" then .ok .Left
  else if s = "+" then .ok .Plus
  else if s = "-" then .ok .Minus
  else if s = "." then .ok .PutChar
  else if s = "," then .ok .ReadChar
  else if s = "[" then .ok .JumpIfZero
  else if s = "]" then .ok .JumpIfNotZero
  else .error ()

/-- `impl Display for InstructionType`: the symbol written by `fmt`. -/
def InstructionType.fmt : InstructionType → String
  | .Right => ">"
  | .Left => "<"
  | .Plus => "+"
  | .Minus => "-"
  | .PutChar => "."
  | .ReadChar => ","
  | .JumpIfZero => "["
  | .JumpIfNotZero => "]"

/-- `impl From<u8> for InstructionType`: casts the byte to a `char`, renders it
as a one-character string and delegates to `from_str`; the `expect` call turns
the `Err` case into a panic with message `Invalid instruction`.  The panic is
modelled as `Except.error` carrying the panic message. -/
def InstructionType.from_u8 (value : Fin 256) : Except String InstructionType :=
  match InstructionType.from_str (String.mk [Char.ofNat value.val]) with
  | .ok t => .ok t
  | .error _ => .error "Invalid instruction"

/-! ## Result of a Rust computation that may panic -/

/-- Outcome of a Rust computation that may panic (`todo!`, `unwrap`, ...):
either a panic with its message, or a value. -/
inductive PanicOr (α : Type) where
  | panic (msg : String)
  | value (v : α)
deriving DecidableEq

/-! ## External backend collaborators (stwo_prover), modelled from the spec

The low-level backend (Fiat-Shamir channel, commitment session, STARK prover
and verifier) is an external collaborator of this repository; the spec fixes
only the operations the core calls on it.  The channel is modelled as the
ordered list of operations applied to it: mixing is appending, and drawing is
a deterministic function of the transcript state so far (and is itself
recorded, since drawing advances the real channel state). -/

/-- One operation applied to the Fiat-Shamir channel, in order.  `mixRoot`
records the Merkle root mixed by a commitment (the root is identified with the
committed tree content), `mixU64` an integer mixed by `Claim::mix_into`,
`mixFelts` the field elements mixed by the interaction claim, `drawFelts` a
draw of pseudorandom field elements. -/
inductive ChannelOp where
  | mixRoot (root : List Nat)
  | mixU64 (v : Nat)
  | mixFelts (v : Nat)
  | drawFelts
deriving DecidableEq

/-- `Blake2sChannel::default()`: a fresh default-seeded transcript, i.e. no
operation applied yet. -/
def Blake2sChannel.default : List ChannelOp := []

/-- Pairing encode of a channel state into one natural number, used to model
the deterministic dependence of drawn values on the transcript state. -/
def ChannelOp.encode : ChannelOp → Nat
  | .mixRoot r => Nat.pair 0 (r.foldl (fun a x => Nat.pair a x) 0)
  | .mixU64 v => Nat.pair 1 v
  | .mixFelts v => Nat.pair 2 v
  | .drawFelts => 3

/-- Encode a whole channel state as one natural number (injectively enough for
the data-flow the claims examine). -/
def chanEncode (l : List ChannelOp) : Nat :=
  l.foldl (fun a o => Nat.pair a o.encode) 0

/-- `FriConfig` of the backend: only the blow-up factor reaches the driver. -/
structure FriConfig where
  log_blowup_factor : Nat
deriving DecidableEq

/-- `PcsConfig` of the backend, as used by the driver. -/
structure PcsConfig where
  fri_config : FriConfig
deriving DecidableEq

/-- Modelled from the spec: `PcsConfig::default()` is backend-provided; its
concrete blow-up value is external to this repository and immaterial to the
driver, which only adds it to `LOG_MAX_ROWS`. -/
def PcsConfig.default : PcsConfig := ⟨⟨1⟩⟩

/-- Modelled from the spec: opaque backend proving error (degree overflow,
inconsistent domain size, internal fault), carried around unchanged. -/
structure ProvingError where
  code : Nat
deriving DecidableEq

/-- Backend verification error: `InvalidLookup` is the distinct typed
rejection raised by `verify_brainfuck` itself; every other backend failure is
carried opaquely. -/
inductive VerificationError where
  | InvalidLookup (msg : String)
  | Backend (code : Nat)
deriving DecidableEq

/-- Modelled from the spec: the backend STARK proof object; the driver only
reads its per-tree commitments (`proof.commitments[i]`). -/
structure StarkProof where
  commitments : List (List Nat)
deriving DecidableEq

/-! ## brainfuck_prover/src/components/mod.rs -/

/-- `enum TraceError`: the component trace is empty. -/
inductive TraceError where
  | EmptyTrace
deriving DecidableEq

/-- `Claim<T: TraceColumn>` from components/mod.rs: the logarithmic size of
the evaluated trace.  The `TraceColumn` capability of `T` is its column count,
passed explicitly where the source uses `T::count()`. -/
structure Claim where
  log_size : Nat
deriving DecidableEq

/-- `Claim::new(log_size)`. -/
def Claim.new (log_size : Nat) : Claim := ⟨log_size⟩

/-- `Claim::log_sizes()`: `TreeVec::new(vec![preprocessed, main, interaction])`
with empty preprocessed and interaction lists and `T::count()` copies of
`log_size` for the main trace.  `count` stands for `T::count()`. -/
def Claim.log_sizes (count : Nat) (c : Claim) : List (List Nat) :=
  [[], List.replicate count c.log_size, []]

/-- `Claim::mix_into(channel)`: `channel.mix_u64(self.log_size.into())`. -/
def Claim.mix_into (c : Claim) (channel : List ChannelOp) : List ChannelOp :=
  channel ++ [.mixU64 c.log_size]

/-- Modelled from the spec: `MemoryColumn::count()` lives in
components/memory (not under src/); the concrete number of memory columns is
immaterial to the claims, the model fixes it. -/
def MemoryColumn.count : Nat := 3

/-! ## Memory component pieces (crate files not under src/) -/

/-- Modelled from the spec: `LOG_N_LANES` of the SimdBackend, added to the
log2 of the table size by the trace builder. -/
def LOG_N_LANES : Nat := 4

/-- Fuel-driven floor base-2 logarithm, structurally recursive so that it
evaluates inside the kernel. -/
def log2Fuel : Nat → Nat → Nat
  | 0, _ => 0
  | fuel + 1, n => if n ≤ 1 then 0 else 1 + log2Fuel fuel (n / 2)

/-- Modelled from the spec: the `log_size` a raw trace of `rows` rows reduces
to — the log2 of the (padded) table size plus `LOG_N_LANES`.  The exact
padding arithmetic lives in the table builder (not under src/); the model uses
floor log2, which preserves what the claims depend on (monotone growth and
the existence of inputs exceeding `LOG_MAX_ROWS`). -/
def traceLogSize (rows : Nat) : Nat := log2Fuel rows rows + LOG_N_LANES

/-- Modelled from the spec: the VM `Machine` (upstream collaborator, crate
files not under src/).  Only its raw execution record reaches the driver, and
of that record only the row count the memory table reduces to is observable
to the orchestration layer, so the machine is abstracted to that count. -/
structure Machine where
  rows : Nat
deriving DecidableEq

/-- `inputs.trace()`: the raw VM trace handed to the table builder. -/
def Machine.trace (m : Machine) : Nat := m.rows

/-- Modelled from the spec: `MemoryTable::from(vm_trace).trace_evaluation()`
(components/memory/table.rs, not under src/): reduces the raw VM trace to
column evaluations plus a `MemoryClaim`; a trace reducing to zero rows fails
with `EmptyTrace`.  The column evaluations are abstracted to the row count. -/
def MemoryTable.trace_evaluation (rows : Nat) : Except TraceError (Nat × Claim) :=
  if rows = 0 then .error .EmptyTrace
  else .ok (rows, Claim.new (traceLogSize rows))

/-- Modelled from the spec: the random coefficients a component lookup
argument draws from the channel, abstracted to the (deterministic) transcript
state at draw time. -/
structure MemoryElements where
  state : List ChannelOp
deriving DecidableEq

/-- Modelled from the spec: `MemoryElements::draw(channel)` draws the lookup
coefficients, deterministically derived from the transcript state, advancing
the channel. -/
def MemoryElements.draw (channel : List ChannelOp) : MemoryElements × List ChannelOp :=
  (⟨channel⟩, channel ++ [.drawFelts])

/-- Modelled from the spec: `memory::component::InteractionClaim` — the
claimed total of the memory lookup running sum. -/
structure MemoryInteractionClaim where
  claimed_sum : Nat
deriving DecidableEq

/-- Modelled from the spec: mixing the claimed sum of the memory component
into the channel. -/
def MemoryInteractionClaim.mix_into (ic : MemoryInteractionClaim)
    (channel : List ChannelOp) : List ChannelOp :=
  channel ++ [.mixFelts ic.claimed_sum]

/-- Modelled from the spec: `interaction_trace_evaluation(main_trace,
lookup_elements)` (components/memory/table.rs, not under src/): builds the
running-sum interaction columns and the final claimed sum.  The lookup
algebra is explicitly out of the spec's scope; the model keeps only the data
flow, deriving the sum injectively from both inputs. -/
def interaction_trace_evaluation (main_trace : Nat) (elements : MemoryElements) :
    Nat × MemoryInteractionClaim :=
  let s := Nat.pair main_trace (chanEncode elements.state)
  (s, ⟨s⟩)

/-! ## brainfuck_prover/src/brainfuck_air/mod.rs -/

/-- `BrainfuckClaim`: the aggregate claim of the first phase — currently the
memory component only. -/
structure BrainfuckClaim where
  memory : Claim
deriving DecidableEq

/-- `BrainfuckClaim::mix_into`: forwards to the memory claim. -/
def BrainfuckClaim.mix_into (c : BrainfuckClaim) (channel : List ChannelOp) :
    List ChannelOp :=
  c.memory.mix_into channel

/-- `BrainfuckClaim::log_sizes`: forwards to the memory claim. -/
def BrainfuckClaim.log_sizes (c : BrainfuckClaim) : List (List Nat) :=
  c.memory.log_sizes MemoryColumn.count

/-- `BrainfuckInteractionElements`: all interaction elements drawn from the
channel. -/
structure BrainfuckInteractionElements where
  memory_lookup_elements : MemoryElements
deriving DecidableEq

/-- `BrainfuckInteractionElements::draw(channel)`. -/
def BrainfuckInteractionElements.draw (channel : List ChannelOp) :
    BrainfuckInteractionElements × List ChannelOp :=
  let (e, channel) := MemoryElements.draw channel
  (⟨e⟩, channel)

/-- `BrainfuckInteractionClaim`: the aggregate interaction claim. -/
structure BrainfuckInteractionClaim where
  memory : MemoryInteractionClaim
deriving DecidableEq

/-- `BrainfuckInteractionClaim::mix_into`: forwards to the memory claim. -/
def BrainfuckInteractionClaim.mix_into (ic : BrainfuckInteractionClaim)
    (channel : List ChannelOp) : List ChannelOp :=
  ic.memory.mix_into channel

/-- `lookup_sum_valid(claim, interaction_elements, interaction_claim)`: the
cross-component lookup-sum consistency predicate.  Its body in the source is
`todo!()`, which unconditionally panics with `not yet implemented`. -/
def lookup_sum_valid (_claim : BrainfuckClaim)
    (_interaction_elements : BrainfuckInteractionElements)
    (_interaction_claim : BrainfuckInteractionClaim) : PanicOr Bool :=
  .panic "not yet implemented"

/-- `MemoryEval::new(claim, lookup_elements, interaction_claim)`: the memory
constraint evaluator, recorded by its three construction inputs. -/
structure MemoryEval where
  claim : Claim
  lookup_elements : MemoryElements
  interaction_claim : MemoryInteractionClaim
deriving DecidableEq

/-- `MemoryComponent::new(tree_span_provider, eval, (claimed_sum, None))`,
recorded by its construction inputs. -/
structure MemoryComponent where
  eval : MemoryEval
  claimed_sum : Nat
deriving DecidableEq

/-- `BrainfuckComponents`: the component registry of the Brainfuck ZK-VM,
together with the shared preprocessed-column table (`TraceLocationAllocator`
seeded with the is-first columns). -/
structure BrainfuckComponents where
  preprocessed_columns : List Nat
  memory : MemoryComponent
deriving DecidableEq

/-- `BrainfuckComponents::new(claim, interaction_elements, interaction_claim)`:
builds the registry — the `IsFirst(claim.memory.log_size)` preprocessed
column, the `TraceLocationAllocator` over it, and the memory component from
the memory claim, the cloned lookup elements and the memory interaction
claim. -/
def BrainfuckComponents.new (claim : BrainfuckClaim)
    (interaction_elements : BrainfuckInteractionElements)
    (interaction_claim : BrainfuckInteractionClaim) : BrainfuckComponents :=
  { preprocessed_columns := [claim.memory.log_size]
    memory :=
      { eval :=
          { claim := claim.memory
            lookup_elements := interaction_elements.memory_lookup_elements
            interaction_claim := interaction_claim.memory }
        claimed_sum := interaction_claim.memory.claimed_sum } }

/-- `LOG_MAX_ROWS = ilog2(MAX_ROWS)`: the ZK-VM does not accept programs with
more than 2^20 steps. -/
def LOG_MAX_ROWS : Nat := 20

/-- `BrainfuckProof`: the complete proof artifact — the claim, the
interaction claim and the backend STARK proof. -/
structure BrainfuckProof where
  claim : BrainfuckClaim
  interaction_claim : BrainfuckInteractionClaim
  proof : StarkProof
deriving DecidableEq

/-- Named protocol step of the prover driver, in execution order. -/
inductive Event where
  | setup (twiddleLogSize : Nat)
  | commitPreprocessed
  | buildMainTrace
  | mixClaim (logSize : Nat)
  | commitMain
  | drawInteractionElements
  | buildInteractionTrace
  | mixInteractionClaim (claimedSum : Nat)
  | commitInteraction
  | backendProve
deriving DecidableEq

/-- Abstract backend `prover::prove::<SimdBackend, _>(components, channel,
commitment_scheme)`: the external STARK prover, a parameter of the model. -/
def BackendProve : Type :=
  BrainfuckComponents → List ChannelOp → List (List Nat) →
    Except ProvingError StarkProof

/-- Abstract backend `verify(components, channel, commitment_scheme_verifier,
proof)`: the external STARK verifier, a parameter of the model. -/
def BackendVerify : Type :=
  BrainfuckComponents → List ChannelOp → List (List Nat × List Nat) →
    StarkProof → Except VerificationError Unit

/-- Everything observable about one `prove_brainfuck` execution: its result
(including panics), the final Fiat-Shamir channel state (the state at the
panic point when it panics), the committed trees of the commitment session in
order, and the ordered log of protocol steps that ran. -/
structure ProveOutcome where
  result : PanicOr (Except ProvingError BrainfuckProof)
  channel : List ChannelOp
  trees : List (List Nat)
  log : List Event
deriving DecidableEq

/-- Panic message of `Result::unwrap()` on the `EmptyTrace` error. -/
def unwrapFailMsg : String :=
  "called Result::unwrap() on an Err value: EmptyTrace"

/-- `prove_brainfuck(inputs)`: the prover driver, translated line by line from
brainfuck_air/mod.rs.  The external backend prover is passed as `backend`;
channel and commitment-session state are threaded explicitly and every
protocol step is appended to the event log in the order the source performs
it. -/
def prove_brainfuck (backend : BackendProve) (inputs : Machine) : ProveOutcome :=
  -- Protocol Setup
  let config := PcsConfig.default
  let twiddleLogSize := LOG_MAX_ROWS + config.fri_config.log_blowup_factor + 2
  let channel := Blake2sChannel.default
  let trees : List (List Nat) := []
  let log := [Event.setup twiddleLogSize]
  -- Interaction Phase 0 - Preprocessed Trace: commit an empty tree
  let preprocessedTree : List Nat := []
  let channel := channel ++ [.mixRoot preprocessedTree]
  let trees := trees ++ [preprocessedTree]
  let log := log ++ [Event.commitPreprocessed]
  -- Interaction Phase 1 - Main Trace
  match MemoryTable.trace_evaluation inputs.trace with
  | .error _ =>
      -- the source calls .unwrap() on the evaluation result: panic
      { result := .panic unwrapFailMsg, channel, trees, log }
  | .ok (memory_trace, memory_claim) =>
      let log := log ++ [Event.buildMainTrace]
      let mainTree := [memory_trace]
      let claim : BrainfuckClaim := { memory := memory_claim }
      -- Mix the claim into the Fiat-Shamir channel.
      let channel := claim.mix_into channel
      let log := log ++ [Event.mixClaim memory_claim.log_size]
      -- Commit the main trace.
      let channel := channel ++ [.mixRoot mainTree]
      let trees := trees ++ [mainTree]
      let log := log ++ [Event.commitMain]
      -- Interaction Phase 2 - Interaction Trace: draw interaction elements
      let (interaction_elements, channel) := BrainfuckInteractionElements.draw channel
      let log := log ++ [Event.drawInteractionElements]
      let (memory_interaction_trace_eval, memory_interaction_claim) :=
        interaction_trace_evaluation memory_trace
          interaction_elements.memory_lookup_elements
      let log := log ++ [Event.buildInteractionTrace]
      let interactionTree := [memory_interaction_trace_eval]
      let interaction_claim : BrainfuckInteractionClaim :=
        { memory := memory_interaction_claim }
      -- Mix the interaction claim into the Fiat-Shamir channel.
      let channel := interaction_claim.mix_into channel
      let log := log ++ [Event.mixInteractionClaim memory_interaction_claim.claimed_sum]
      -- Commit the interaction trace.
      let channel := channel ++ [.mixRoot interactionTree]
      let trees := trees ++ [interactionTree]
      let log := log ++ [Event.commitInteraction]
      -- Proof Generation
      let component_builder :=
        BrainfuckComponents.new claim interaction_elements interaction_claim
      let log := log ++ [Event.backendProve]
      match backend component_builder channel trees with
      | .error e => { result := .value (.error e), channel, trees, log }
      | .ok proof =>
          { result := .value (.ok { claim, interaction_claim, proof })
            channel, trees, log }

/-- Everything observable about one `verify_brainfuck` execution: its result
(including panics), the final channel state, and the (commitment, declared
log-sizes) pairs registered with the commitment-scheme verifier, in order. -/
structure VerifyOutcome where
  result : PanicOr (Except VerificationError Unit)
  channel : List ChannelOp
  registered : List (List Nat × List Nat)
deriving DecidableEq

/-- `verify_brainfuck(proof)`: the verifier driver, translated line by line
from brainfuck_air/mod.rs.  The external backend verifier is passed as
`backend`; the per-tree log-sizes are recomputed from the embedded claim, the
proof contributes only its commitments. -/
def verify_brainfuck (backend : BackendVerify) (bp : BrainfuckProof) : VerifyOutcome :=
  -- Protocol Setup
  let channel := Blake2sChannel.default
  let registered : List (List Nat × List Nat) := []
  let log_sizes := bp.claim.log_sizes
  -- Interaction Phase 0 - Preprocessed Trace
  let c0 := bp.proof.commitments.getD 0 []
  let channel := channel ++ [.mixRoot c0]
  let registered := registered ++ [(c0, log_sizes.getD 0 [])]
  -- Interaction Phase 1 - Main Trace
  let channel := bp.claim.mix_into channel
  let c1 := bp.proof.commitments.getD 1 []
  let channel := channel ++ [.mixRoot c1]
  let registered := registered ++ [(c1, log_sizes.getD 1 [])]
  -- Interaction Phase 2 - Interaction Trace
  let (interaction_elements, channel) := BrainfuckInteractionElements.draw channel
  -- Check that the lookup sum is valid, otherwise throw
  match lookup_sum_valid bp.claim interaction_elements bp.interaction_claim with
  | .panic msg => { result := .panic msg, channel, registered }
  | .value ok =>
      if !ok then
        { result := .value (.error (.InvalidLookup "Invalid LogUp sum"))
          channel, registered }
      else
        let channel := bp.interaction_claim.mix_into channel
        let c2 := bp.proof.commitments.getD 2 []
        let channel := channel ++ [.mixRoot c2]
        let registered := registered ++ [(c2, log_sizes.getD 2 [])]
        -- Proof Verification
        let component_builder :=
          BrainfuckComponents.new bp.claim interaction_elements bp.interaction_claim
        match backend component_builder channel registered bp.proof with
        | .ok _ => { result := .value (.ok ()), channel, registered }
        | .error e => { result := .value (.error e), channel, registered }

/-! ## Derived values of one prover run, used to state the theorems -/

/-- Twiddle-domain log-size computed during SETUP:
`LOG_MAX_ROWS + config.fri_config.log_blowup_factor + 2`. -/
def setupLogSize : Nat :=
  LOG_MAX_ROWS + PcsConfig.default.fri_config.log_blowup_factor + 2

/-- Channel state of a prover run right before the interaction elements are
drawn: preprocessed root, claim log-size, main root. -/
def mainChannelPrefix (m : Machine) : List ChannelOp :=
  [.mixRoot [], .mixU64 (traceLogSize m.rows), .mixRoot [m.rows]]

/-- The interaction elements a prover run on `m` draws. -/
def machineElements (m : Machine) : BrainfuckInteractionElements :=
  ⟨⟨mainChannelPrefix m⟩⟩

/-- The claimed lookup sum a prover run on `m` produces. -/
def machineSum (m : Machine) : Nat :=
  Nat.pair m.rows (chanEncode (mainChannelPrefix m))

/-- The aggregate claim a prover run on `m` builds. -/
def machineClaim (m : Machine) : BrainfuckClaim :=
  ⟨Claim.new (traceLogSize m.rows)⟩

/-- The aggregate interaction claim a prover run on `m` builds. -/
def machineInteractionClaim (m : Machine) : BrainfuckInteractionClaim :=
  ⟨⟨machineSum m⟩⟩

/-- The component registry a prover run on `m` builds. -/
def machineComponents (m : Machine) : BrainfuckComponents :=
  BrainfuckComponents.new (machineClaim m) (machineElements m)
    (machineInteractionClaim m)

/-- The final channel state of a prover run on `m` with a nonempty trace. -/
def proveChannel (m : Machine) : List ChannelOp :=
  mainChannelPrefix m ++ [.drawFelts, .mixFelts (machineSum m), .mixRoot [machineSum m]]

/-- The committed trees of a prover run on `m` with a nonempty trace. -/
def proveTrees (m : Machine) : List (List Nat) :=
  [[], [m.rows], [machineSum m]]

/-- The full ordered event log of a prover run on `m` with a nonempty trace. -/
def proveLog (m : Machine) : List Event :=
  [.setup setupLogSize, .commitPreprocessed, .buildMainTrace,
   .mixClaim (traceLogSize m.rows), .commitMain, .drawInteractionElements,
   .buildInteractionTrace, .mixInteractionClaim (machineSum m),
   .commitInteraction, .backendProve]

/-- Structural description of a prover run on a machine with a nonempty
trace: the outcome is fully determined, and the result is exactly the image
of the single backend call. -/
lemma prove_brainfuck_spec (backend : BackendProve) (m : Machine)
    (h : m.rows ≠ 0) :
    prove_brainfuck backend m =
      { result :=
          match backend (machineComponents m) (proveChannel m) (proveTrees m) with
          | .error e => .value (.error e)
          | .ok proof =>
              .value (.ok { claim := machineClaim m
                            interaction_claim := machineInteractionClaim m
                            proof })
        channel := proveChannel m
        trees := proveTrees m
        log := proveLog m } := by
  unfold prove_brainfuck
  simp only [Machine.trace, MemoryTable.trace_evaluation, if_neg h]
  cases hb : backend (machineComponents m) (proveChannel m) (proveTrees m) with
  | error e =>
      simp [Blake2sChannel.default, BrainfuckClaim.mix_into, Claim.mix_into,
        BrainfuckInteractionElements.draw, MemoryElements.draw,
        interaction_trace_evaluation, BrainfuckInteractionClaim.mix_into,
        MemoryInteractionClaim.mix_into, machineComponents, machineClaim,
        machineElements, machineInteractionClaim, machineSum, proveChannel,
        proveTrees, proveLog, mainChannelPrefix, setupLogSize, Claim.new] at hb ⊢
      rw [hb]
  | ok proof =>
      simp [Blake2sChannel.default, BrainfuckClaim.mix_into, Claim.mix_into,
        BrainfuckInteractionElements.draw, MemoryElements.draw,
        interaction_trace_evaluation, BrainfuckInteractionClaim.mix_into,
        MemoryInteractionClaim.mix_into, machineComponents, machineClaim,
        machineElements, machineInteractionClaim, machineSum, proveChannel,
        proveTrees, proveLog, mainChannelPrefix, setupLogSize, Claim.new] at hb ⊢
      rw [hb]

/-- Structural description of a prover run on a machine whose trace reduces
to zero rows: the run panics on the unwrapped `EmptyTrace` error, after the
preprocessed commit has already mixed into the channel and before any further
step. -/
lemma prove_brainfuck_empty (backend : BackendProve) (m : Machine)
    (h : m.rows = 0) :
    prove_brainfuck backend m =
      { result := .panic unwrapFailMsg
        channel := [.mixRoot []]
        trees := [[]]
        log := [.setup setupLogSize, .commitPreprocessed] } := by
  unfold prove_brainfuck
  simp [Machine.trace, MemoryTable.trace_evaluation, h, Blake2sChannel.default,
    setupLogSize]

/-- Structural description of any verifier run: the per-tree sizes are read
off the embedded claim, the channel replays the preprocessed commit, the
claim mix and the main commit, then draws the interaction elements, and the
run panics inside `lookup_sum_valid`. -/
lemma verify_brainfuck_spec (backend : BackendVerify) (bp : BrainfuckProof) :
    verify_brainfuck backend bp =
      { result := .panic "not yet implemented"
        channel := [.mixRoot (bp.proof.commitments.getD 0 []),
                    .mixU64 bp.claim.memory.log_size,
                    .mixRoot (bp.proof.commitments.getD 1 []), .drawFelts]
        registered := [(bp.proof.commitments.getD 0 [], []),
                       (bp.proof.commitments.getD 1 [],
                        List.replicate MemoryColumn.count bp.claim.memory.log_size)] } := by
  unfold verify_brainfuck
  simp [Blake2sChannel.default, BrainfuckClaim.mix_into, Claim.mix_into,
    BrainfuckClaim.log_sizes, Claim.log_sizes,
    BrainfuckInteractionElements.draw, MemoryElements.draw, lookup_sum_valid]

/-! ## Concrete collaborators used by witnesses and counterexamples -/

/-- A backend prover that returns a proof embedding the committed trees as
its commitments, the behaviour the real backend has on success. -/
def bkRoots : BackendProve := fun _ _ trees => .ok ⟨trees⟩

/-- A backend prover failing with error code 7. -/
def bkErr7 : BackendProve := fun _ _ _ => .error ⟨7⟩

/-- A backend verifier that accepts everything. -/
def bvOk : BackendVerify := fun _ _ _ _ => .ok ()

/-! ## Claim theorems -/

/-- C9: the opcode symbol mapping round-trips: `from_str` applied to the
string `Display` produces for a variant returns that variant, and `from_str`
returns `Err(())` for every string that is not exactly one of the eight
one-character symbols. -/
theorem instruction_symbol_roundtrip :
    (∀ t : InstructionType, InstructionType.from_str t.fmt = Except.ok t) ∧
    ∀ s : String, s ≠ ">" → s ≠ "<" → s ≠ "+" → s ≠ "-" → s ≠ "." →
      s ≠ "," → s ≠ "[" → s ≠ "]" →
      InstructionType.from_str s = Except.error () := by
  constructor
  · intro t
    cases t <;> rfl
  · intro s h1 h2 h3 h4 h5 h6 h7 h8
    simp [InstructionType.from_str, h1, h2, h3, h4, h5, h6, h7, h8]

/-- Witness for C9: the round-trip theorem applied to the concrete
non-symbol string `x`. -/
theorem instruction_symbol_roundtrip_witness :
    InstructionType.from_str "x" = Except.error () :=
  instruction_symbol_roundtrip.2 "x" (by decide) (by decide) (by decide)
    (by decide) (by decide) (by decide) (by decide) (by decide)

set_option maxRecDepth 8192 in
/-- C10: `From<u8>` is partial: each of the eight ASCII opcode bytes maps to
its variant, and every other byte value panics with `Invalid instruction`
(the panic is modelled as the `Except.error` case of `from_u8`). -/
theorem instruction_from_u8_partial :
    InstructionType.from_u8 62 = Except.ok InstructionType.Right ∧
    InstructionType.from_u8 60 = Except.ok InstructionType.Left ∧
    InstructionType.from_u8 43 = Except.ok InstructionType.Plus ∧
    InstructionType.from_u8 45 = Except.ok InstructionType.Minus ∧
    InstructionType.from_u8 46 = Except.ok InstructionType.PutChar ∧
    InstructionType.from_u8 44 = Except.ok InstructionType.ReadChar ∧
    InstructionType.from_u8 91 = Except.ok InstructionType.JumpIfZero ∧
    InstructionType.from_u8 93 = Except.ok InstructionType.JumpIfNotZero ∧
    ∀ b : Fin 256, b ∉ ([62, 60, 43, 45, 46, 44, 91, 93] : List (Fin 256)) →
      InstructionType.from_u8 b = Except.error "Invalid instruction" := by
  refine ⟨by decide, by decide, by decide, by decide, by decide, by decide,
    by decide, by decide, ?_⟩
  decide

/-- Witness for C10: the partiality theorem applied to the concrete
non-opcode byte 120 (ASCII `x`). -/
theorem instruction_from_u8_partial_witness :
    InstructionType.from_u8 120 = Except.error "Invalid instruction" :=
  instruction_from_u8_partial.2.2.2.2.2.2.2.2 120 (by decide)

/-- C5: for every column count C and log-size L, `Claim::log_sizes` returns
exactly three lists in the order preprocessed, main, interaction; the
preprocessed and interaction lists are empty and the main list has exactly C
entries, each equal to L. -/
theorem claim_log_sizes_shape (C L i : Nat) (h : i < C) :
    (Claim.log_sizes C (Claim.new L)).length = 3 ∧
    (Claim.log_sizes C (Claim.new L)).get? 0 = some [] ∧
    (Claim.log_sizes C (Claim.new L)).get? 2 = some [] ∧
    ∃ main, (Claim.log_sizes C (Claim.new L)).get? 1 = some main ∧
      main.length = C ∧ main.get? i = some L := by
  refine ⟨rfl, rfl, rfl, List.replicate C L, rfl, List.length_replicate C L, ?_⟩
  simp [List.get?_eq_getElem?, List.getElem?_replicate, h]

/-- Witness for C5: the shape theorem applied at column count 3, log-size 7,
entry index 1. -/
theorem claim_log_sizes_shape_witness :
    (Claim.log_sizes 3 (Claim.new 7)).length = 3 ∧
    (Claim.log_sizes 3 (Claim.new 7)).get? 0 = some [] ∧
    (Claim.log_sizes 3 (Claim.new 7)).get? 2 = some [] ∧
    ∃ main, (Claim.log_sizes 3 (Claim.new 7)).get? 1 = some main ∧
      main.length = 3 ∧ main.get? 1 = some 7 :=
  claim_log_sizes_shape 3 7 1 (by decide)

/-- C1: the lookup-sum consistency predicate does not fail closed with the
typed `InvalidLookup` rejection: `lookup_sum_valid` is `todo!()` in the
source, so on every input it panics with `not yet implemented`, and
`verify_brainfuck` therefore panics on every input instead of returning the
distinct `InvalidLookup` reason the claim requires.  The verifier does never
accept — but by a panic, which the claim explicitly rules out. -/
theorem verify_lookup_sum_fails_by_panic :
    (∀ (c : BrainfuckClaim) (ie : BrainfuckInteractionElements)
        (ic : BrainfuckInteractionClaim),
        lookup_sum_valid c ie ic = PanicOr.panic "not yet implemented") ∧
    ∀ (bv : BackendVerify) (bp : BrainfuckProof),
      (verify_brainfuck bv bp).result = PanicOr.panic "not yet implemented" := by
  refine ⟨fun _ _ _ => rfl, fun bv bp => ?_⟩
  rw [verify_brainfuck_spec]

/-- C2: phase order of `prove_brainfuck`.  For every backend and machine the
event log and the channel trace are fixed: setup, preprocessed commit, main
trace build, claim mix, main commit, draw of the interaction elements,
interaction trace build, interaction-claim mix, interaction commit, backend
prove — so every bind precedes its commit and no interaction element is
drawn before the main-trace commit has mixed into the channel.  (On an empty
trace the run stops, in order, after the preprocessed commit.) -/
theorem prove_brainfuck_phase_order (backend : BackendProve) (m : Machine) :
    ((prove_brainfuck backend m).log =
      if m.rows = 0 then [.setup setupLogSize, .commitPreprocessed]
      else
        [.setup setupLogSize, .commitPreprocessed, .buildMainTrace,
         .mixClaim (traceLogSize m.rows), .commitMain,
         .drawInteractionElements, .buildInteractionTrace,
         .mixInteractionClaim (machineSum m), .commitInteraction,
         .backendProve]) ∧
    ((prove_brainfuck backend m).channel =
      if m.rows = 0 then [ChannelOp.mixRoot []]
      else
        [.mixRoot [], .mixU64 (traceLogSize m.rows), .mixRoot [m.rows],
         .drawFelts, .mixFelts (machineSum m), .mixRoot [machineSum m]]) := by
  by_cases h : m.rows = 0
  · rw [prove_brainfuck_empty backend m h]
    simp [h]
  · rw [prove_brainfuck_spec backend m h]
    simp [h, proveLog, proveChannel, mainChannelPrefix]

/-- Counterexample for C3: on the machine whose trace reduces to zero rows
the run does not return the typed `EmptyTrace` error with an untouched
transcript: it panics on the unwrapped error, and at that point the channel
already holds the preprocessed-commit mix and the commitment session already
holds one committed tree. -/
theorem prove_empty_trace_claim_false :
    (prove_brainfuck bkRoots ⟨0⟩).result = PanicOr.panic unwrapFailMsg ∧
    (prove_brainfuck bkRoots ⟨0⟩).channel = [ChannelOp.mixRoot []] ∧
    (prove_brainfuck bkRoots ⟨0⟩).trees = [[]] := by
  decide

/-- C3 as amended: for every machine whose raw trace reduces to zero rows,
the trace builder fails with the typed `EmptyTrace` error, and
`prove_brainfuck` panics on unwrapping it — after the preprocessed-trace
commit has already mixed into the channel, and before the claim mix and the
main-trace commit. -/
theorem prove_empty_trace_panics (backend : BackendProve) (m : Machine)
    (h : m.rows = 0) :
    MemoryTable.trace_evaluation m.trace = Except.error TraceError.EmptyTrace ∧
    (prove_brainfuck backend m).result = PanicOr.panic unwrapFailMsg ∧
    (prove_brainfuck backend m).channel = [ChannelOp.mixRoot []] ∧
    (prove_brainfuck backend m).log =
      [Event.setup setupLogSize, Event.commitPreprocessed] := by
  rw [prove_brainfuck_empty backend m h]
  simp [Machine.trace, MemoryTable.trace_evaluation, h]

/-- Witness for C3 as amended: the theorem applied to the zero-row machine. -/
theorem prove_empty_trace_panics_witness :
    MemoryTable.trace_evaluation (Machine.trace ⟨0⟩) =
      Except.error TraceError.EmptyTrace ∧
    (prove_brainfuck bkErr7 ⟨0⟩).result = PanicOr.panic unwrapFailMsg ∧
    (prove_brainfuck bkErr7 ⟨0⟩).channel = [ChannelOp.mixRoot []] ∧
    (prove_brainfuck bkErr7 ⟨0⟩).log =
      [Event.setup setupLogSize, Event.commitPreprocessed] :=
  prove_empty_trace_panics bkErr7 ⟨0⟩ rfl

/-- A concrete proof object used as input of the C4 counterexample. -/
def pfC4 : BrainfuckProof :=
  { claim := ⟨⟨4⟩⟩, interaction_claim := ⟨⟨0⟩⟩, proof := ⟨[[], [1], [0]]⟩ }

/-- Counterexample for C4: on a concrete proof object `verify_brainfuck` does
not mix the `InteractionClaim` (claimed sum 0 here) into its channel, nor
does it rebuild the component registry: the run panics inside
`lookup_sum_valid` right after drawing the interaction elements, and the
final channel holds no interaction-claim mix at all. -/
theorem verify_never_reaches_interaction_mix :
    (verify_brainfuck bvOk pfC4).result = PanicOr.panic "not yet implemented" ∧
    (verify_brainfuck bvOk pfC4).channel =
      [ChannelOp.mixRoot [], ChannelOp.mixU64 4, ChannelOp.mixRoot [1],
       ChannelOp.drawFelts] ∧
    (verify_brainfuck bvOk pfC4).channel.count (ChannelOp.mixFelts 0) = 0 := by
  decide

/-- C4 as amended: for a proof produced by the prover (with a backend that
embeds the session roots as the proof commitments), `verify_brainfuck`
recomputes the per-tree log-sizes solely from the embedded claim, and its
transcript replays the prover's preprocessed commit, claim mix, main commit
and interaction-element draw at identical positions; at that point it panics
inside `lookup_sum_valid`, so the interaction-claim mix, the interaction
commit and the registry rebuild — written identically to the prover's — are
never executed. -/
theorem verify_mirrors_prover_until_draw (bv : BackendVerify)
    (bk : BackendProve) (m : Machine) (bp : BrainfuckProof) (h : m.rows ≠ 0)
    (hres : (prove_brainfuck bk m).result = PanicOr.value (Except.ok bp))
    (hcomm : bp.proof.commitments = (prove_brainfuck bk m).trees) :
    (verify_brainfuck bv bp).registered =
      [(bp.proof.commitments.getD 0 [], bp.claim.log_sizes.getD 0 []),
       (bp.proof.commitments.getD 1 [], bp.claim.log_sizes.getD 1 [])] ∧
    (verify_brainfuck bv bp).channel = (prove_brainfuck bk m).channel.take 4 ∧
    (verify_brainfuck bv bp).result = PanicOr.panic "not yet implemented" := by
  rw [prove_brainfuck_spec bk m h] at hres hcomm ⊢
  cases hb : bk (machineComponents m) (proveChannel m) (proveTrees m) with
  | error e => rw [hb] at hres; simp at hres
  | ok pr =>
      rw [hb] at hres
      simp only [PanicOr.value.injEq, Except.ok.injEq] at hres
      subst hres
      dsimp only at hcomm
      rw [verify_brainfuck_spec]
      simp [hcomm, proveTrees, proveChannel, mainChannelPrefix, machineClaim,
        BrainfuckClaim.log_sizes, Claim.log_sizes, Claim.new, List.take]

/-- The proof object `prove_brainfuck` produces on the one-row machine with
the root-faithful backend, used by the C4 witness. -/
def pfW : BrainfuckProof :=
  { claim := machineClaim ⟨1⟩
    interaction_claim := machineInteractionClaim ⟨1⟩
    proof := ⟨proveTrees ⟨1⟩⟩ }

/-- Witness for C4 as amended: the theorem applied to the one-row machine,
the root-faithful backend and the proof object that run produces. -/
theorem verify_mirrors_prover_until_draw_witness :
    (verify_brainfuck bvOk pfW).registered =
      [(pfW.proof.commitments.getD 0 [], pfW.claim.log_sizes.getD 0 []),
       (pfW.proof.commitments.getD 1 [], pfW.claim.log_sizes.getD 1 [])] ∧
    (verify_brainfuck bvOk pfW).channel =
      (prove_brainfuck bkRoots ⟨1⟩).channel.take 4 ∧
    (verify_brainfuck bvOk pfW).result = PanicOr.panic "not yet implemented" :=
  verify_mirrors_prover_until_draw bvOk bkRoots ⟨1⟩ pfW (by decide) (by decide)
    (by decide)

/-- C6: `Claim::mix_into` appends exactly the claim log-size to the
transcript as one mixed integer and changes nothing else; and within one
`prove_brainfuck` run the claim mix happens exactly once — the event appears
at one position of the log, after the main-trace columns are built and
before the interaction elements are drawn, and at no position of the
surrounding prefix and suffix. -/
theorem claim_mix_into_appends_once (backend : BackendProve) (m : Machine)
    (c : Claim) (channel : List ChannelOp) (h : m.rows ≠ 0) :
    c.mix_into channel = channel ++ [ChannelOp.mixU64 c.log_size] ∧
    (prove_brainfuck backend m).log =
      [Event.setup setupLogSize, Event.commitPreprocessed, Event.buildMainTrace]
        ++ Event.mixClaim (traceLogSize m.rows) ::
          [Event.commitMain, Event.drawInteractionElements,
           Event.buildInteractionTrace, Event.mixInteractionClaim (machineSum m),
           Event.commitInteraction, Event.backendProve] ∧
    (∀ v, Event.mixClaim v ∉
      [Event.setup setupLogSize, Event.commitPreprocessed,
       Event.buildMainTrace]) ∧
    (∀ v, Event.mixClaim v ∉
      [Event.commitMain, Event.drawInteractionElements,
       Event.buildInteractionTrace, Event.mixInteractionClaim (machineSum m),
       Event.commitInteraction, Event.backendProve]) ∧
    Event.buildMainTrace ∈
      [Event.setup setupLogSize, Event.commitPreprocessed,
       Event.buildMainTrace] ∧
    Event.drawInteractionElements ∈
      [Event.commitMain, Event.drawInteractionElements,
       Event.buildInteractionTrace, Event.mixInteractionClaim (machineSum m),
       Event.commitInteraction, Event.backendProve] := by
  refine ⟨rfl, ?_, ?_, ?_, by simp, by simp⟩
  · rw [prove_brainfuck_spec backend m h]
    simp [proveLog]
  · intro v; simp
  · intro v; simp

/-- Witness for C6: the theorem applied to the one-row machine and a claim of
log-size 4 mixed into the fresh transcript. -/
theorem claim_mix_into_appends_once_witness :
    (Claim.new 4).mix_into Blake2sChannel.default = [ChannelOp.mixU64 4] ∧
    (prove_brainfuck bkRoots ⟨1⟩).log =
      [Event.setup setupLogSize, Event.commitPreprocessed, Event.buildMainTrace]
        ++ Event.mixClaim (traceLogSize 1) ::
          [Event.commitMain, Event.drawInteractionElements,
           Event.buildInteractionTrace,
           Event.mixInteractionClaim (machineSum ⟨1⟩), Event.commitInteraction,
           Event.backendProve] :=
  ⟨(claim_mix_into_appends_once bkRoots ⟨1⟩ (Claim.new 4) Blake2sChannel.default
      (by decide)).1,
   (claim_mix_into_appends_once bkRoots ⟨1⟩ (Claim.new 4) Blake2sChannel.default
      (by decide)).2.1⟩

/-- C7: on a nonempty trace, `prove_brainfuck` maps the single backend call's
outcome straight to its own result: a backend error is propagated to the
caller unchanged and a backend proof is packaged into the complete
`BrainfuckProof` with the claim and the interaction claim of the run; the
backend-prove step occurs exactly once in the log (no retry), as its final
event. -/
theorem prove_propagates_backend_result (backend : BackendProve) (m : Machine)
    (h : m.rows ≠ 0) :
    (∀ e, backend (machineComponents m) (proveChannel m) (proveTrees m) =
        Except.error e →
      (prove_brainfuck backend m).result = PanicOr.value (Except.error e)) ∧
    (∀ pr, backend (machineComponents m) (proveChannel m) (proveTrees m) =
        Except.ok pr →
      (prove_brainfuck backend m).result =
        PanicOr.value (Except.ok
          { claim := machineClaim m
            interaction_claim := machineInteractionClaim m
            proof := pr })) ∧
    (prove_brainfuck backend m).log =
      [Event.setup setupLogSize, Event.commitPreprocessed, Event.buildMainTrace,
       Event.mixClaim (traceLogSize m.rows), Event.commitMain,
       Event.drawInteractionElements, Event.buildInteractionTrace,
       Event.mixInteractionClaim (machineSum m), Event.commitInteraction]
        ++ [Event.backendProve] ∧
    Event.backendProve ∉
      [Event.setup setupLogSize, Event.commitPreprocessed, Event.buildMainTrace,
       Event.mixClaim (traceLogSize m.rows), Event.commitMain,
       Event.drawInteractionElements, Event.buildInteractionTrace,
       Event.mixInteractionClaim (machineSum m), Event.commitInteraction] := by
  rw [prove_brainfuck_spec backend m h]
  refine ⟨fun e he => ?_, fun pr hpr => ?_, by simp [proveLog], by simp⟩
  · simp only [he]
  · simp only [hpr]

/-- Witness for C7: the propagation theorem applied to the one-row machine
and the backend that fails with error code 7. -/
theorem prove_propagates_backend_result_witness :
    (prove_brainfuck bkErr7 ⟨1⟩).result =
      PanicOr.value (Except.error ⟨7⟩) :=
  (prove_propagates_backend_result bkErr7 ⟨1⟩ (by decide)).1 ⟨7⟩ rfl

/-- C8: `LOG_MAX_ROWS` equals 20, the first protocol step of every run is the
twiddle precomputation at domain log-size `LOG_MAX_ROWS` plus the backend
blow-up margin, the transcript starts from the default-seeded channel (its
first operation is the preprocessed-commit mix), and the driver never
re-validates the bound: even when the trace log-size exceeds `LOG_MAX_ROWS`
the run performs the full protocol sequence unchanged. -/
theorem prove_setup_from_log_max_rows (backend : BackendProve) (m : Machine) :
    LOG_MAX_ROWS = 20 ∧
    (prove_brainfuck backend m).log.head? =
      some (Event.setup
        (LOG_MAX_ROWS + PcsConfig.default.fri_config.log_blowup_factor + 2)) ∧
    (prove_brainfuck backend m).channel.take 1 =
      Blake2sChannel.default ++ [ChannelOp.mixRoot []] ∧
    (LOG_MAX_ROWS < traceLogSize m.rows → m.rows ≠ 0 →
      (prove_brainfuck backend m).log = proveLog m) := by
  by_cases h : m.rows = 0
  · rw [prove_brainfuck_empty backend m h]
    exact ⟨rfl, rfl, rfl, fun _ h0 => absurd h h0⟩
  · rw [prove_brainfuck_spec backend m h]
    exact ⟨rfl, rfl, by simp [proveChannel, mainChannelPrefix, Blake2sChannel.default],
      fun _ _ => rfl⟩

/-- Witness for C8: the setup theorem applied to a machine of 2^17 rows,
whose trace log-size 21 exceeds `LOG_MAX_ROWS = 20`, and which still runs the
full protocol sequence. -/
theorem prove_setup_from_log_max_rows_witness :
    LOG_MAX_ROWS < traceLogSize 131072 ∧
    (prove_brainfuck bkRoots ⟨131072⟩).log.head? =
      some (Event.setup
        (LOG_MAX_ROWS + PcsConfig.default.fri_config.log_blowup_factor + 2)) ∧
    (prove_brainfuck bkRoots ⟨131072⟩).log = proveLog ⟨131072⟩ :=
  ⟨by decide,
   (prove_setup_from_log_max_rows bkRoots ⟨131072⟩).2.1,
   (prove_setup_from_log_max_rows bkRoots ⟨131072⟩).2.2.2 (by decide) (by decide)⟩

end StwoBrainfuck
